import Mathlib

/-!
Shallow embedding of the ProcessAudioTap repository (Python) in Lean 4.

Each definition below is translated from one function or class of the source
tree under src/.  Machine behaviour that lives outside the Python code
(Core Audio calls, the subprocess, the byte queue, os.environ, the file
system) is threaded through as explicit parameters or traces, so that the
Python control flow itself is the only thing the definitions encode.
-/

/-- Kinds of Python exceptions raised by the embedded code. -/
inductive PyError where
  | runtimeError
  | valueError
  | typeError
  | notImplementedError
deriving Repr, DecidableEq

/-- Log records emitted by the embedded code (logger.error / logger.warning). -/
inductive PyLog where
  | errorLog
  | warningLog
deriving Repr, DecidableEq

/-! ## macOS tap engine: src/proctap/backends/macos_pyobjc.py -/

/-- Core Audio platform calls issued by MacOSNativeBackend, with the object
ids they operate on.  Creation calls record the id of the object the OS
handed back; destruction calls record the id they were attempted on. -/
inductive CACall where
  | createTap (tap : Nat)
  | readTapFormat (ok : Bool)
  | createAggregate (agg : Nat)
  | createIOProc (agg io : Nat)
  | deviceStart (agg io : Nat)
  | deviceStop (agg io : Nat)
  | destroyIOProc (agg io : Nat)
  | destroyAggregate (agg : Nat)
  | destroyTap (tap : Nat)
deriving Repr, DecidableEq

/-- The handle fields of MacOSNativeBackend (macos_pyobjc.py, __init__).
Integer Core Audio ids are Option Nat (None in Python is none); the I/O-proc
handle is an opaque PyObjC object, modelled by its id. -/
structure MacState where
  process_object_id : Option Nat
  tap_device_id : Option Nat
  aggregate_device_id : Option Nat
  io_proc_id : Option Nat
  tap_uuid : Option String
  is_running : Bool
deriving Repr, DecidableEq

/-- The state right after MacOSNativeBackend.__init__. -/
def macInitState : MacState :=
  { process_object_id := none
    tap_device_id := none
    aggregate_device_id := none
    io_proc_id := none
    tap_uuid := none
    is_running := false }

/-- Python truthiness of an optional integer Core Audio id:
None and 0 are falsy, everything else truthy (used by the guards
`if self._aggregate_device_id:` etc. in _cleanup). -/
def truthyId : Option Nat → Bool
  | none => false
  | some v => v ≠ 0

/-- Step 1 of _cleanup: `AudioDeviceStop` is attempted exactly when both
`self._aggregate_device_id` and `self._io_proc_id` are truthy
(macos_pyobjc.py line 706). -/
def stopAttempt (st : MacState) : List CACall :=
  match st.aggregate_device_id, st.io_proc_id with
  | some a, some i => if a = 0 then [] else [CACall.deviceStop a i]
  | _, _ => []

/-- Step 2 of _cleanup: `AudioDeviceDestroyIOProcID`, same guard as step 1
(line 713). -/
def destroyIOProcAttempt (st : MacState) : List CACall :=
  match st.aggregate_device_id, st.io_proc_id with
  | some a, some i => if a = 0 then [] else [CACall.destroyIOProc a i]
  | _, _ => []

/-- Step 3 of _cleanup: `AudioHardwareDestroyAggregateDevice`, guarded only by
`self._aggregate_device_id` (line 720). -/
def destroyAggAttempt (st : MacState) : List CACall :=
  match st.aggregate_device_id with
  | some a => if a = 0 then [] else [CACall.destroyAggregate a]
  | none => []

/-- Step 4 of _cleanup: `AudioHardwareDestroyProcessTap`, guarded only by
`self._tap_device_id` (line 727). -/
def destroyTapAttempt (st : MacState) : List CACall :=
  match st.tap_device_id with
  | some t => if t = 0 then [] else [CACall.destroyTap t]
  | none => []

/-- Which of the four tear-down platform calls raise when attempted.  Every
one of them is wrapped in its own try/except in _cleanup, so a raise is
logged and swallowed. -/
structure CleanupFaults where
  stop_raises : Bool
  destroy_io_raises : Bool
  destroy_agg_raises : Bool
  destroy_tap_raises : Bool
deriving Repr, DecidableEq

/-- Log produced by one guarded tear-down step: an error record exactly when
the step was attempted and its platform call raised. -/
def attemptLog (attempted : List CACall) (raises : Bool) : List PyLog :=
  if attempted ≠ [] ∧ raises then [PyLog.errorLog] else []

/-- MacOSNativeBackend._cleanup (macos_pyobjc.py lines 702-739).
The four tear-down calls run in source order; each sits in its own
try/except, so whether a call raises only adds a log record and never
changes which later calls are attempted.  The finally block then resets
every handle field to None.  `_is_running` is not touched by _cleanup. -/
def MacOSNativeBackend.cleanup (f : CleanupFaults) (st : MacState) :
    MacState × List CACall × List PyLog :=
  let s1 := stopAttempt st
  let s2 := destroyIOProcAttempt st
  let s3 := destroyAggAttempt st
  let s4 := destroyTapAttempt st
  let logs := attemptLog s1 f.stop_raises ++ attemptLog s2 f.destroy_io_raises
      ++ attemptLog s3 f.destroy_agg_raises ++ attemptLog s4 f.destroy_tap_raises
  ({ st with
      process_object_id := none
      tap_device_id := none
      aggregate_device_id := none
      io_proc_id := none
      tap_uuid := none },
   s1 ++ s2 ++ s3 ++ s4, logs)

/-- Canonical position of each tear-down call in _cleanup's source order. -/
def teardownRank : CACall → Nat
  | CACall.deviceStop _ _ => 0
  | CACall.destroyIOProc _ _ => 1
  | CACall.destroyAggregate _ => 2
  | CACall.destroyTap _ => 3
  | _ => 4

/-- MacOSNativeBackend.stop (macos_pyobjc.py lines 534-541): return
immediately when not running, otherwise run _cleanup and clear the flag. -/
def MacOSNativeBackend.stop (f : CleanupFaults) (st : MacState) :
    MacState × List CACall × List PyLog :=
  if st.is_running = false then (st, [], [])
  else
    let r := MacOSNativeBackend.cleanup f st
    ({ r.1 with is_running := false }, r.2.1, r.2.2)

/-- The ambient system state the macOS engine could query: the UID the
default output device actually has (kAudioDevicePropertyDeviceUID of the
kAudioHardwarePropertyDefaultSystemOutputDevice object). -/
structure SystemAudioState where
  default_output_uid : String
deriving Repr, DecidableEq

/-- get_default_output_device_uid (macos_pyobjc.py lines 245-252).  The body
never queries the system: it returns the hard-coded string
"BuiltInSpeakerDevice" (marked TEMPORARY / TODO in the source). -/
def get_default_output_device_uid (_sys : SystemAudioState) : String :=
  "BuiltInSpeakerDevice"

/-- The aggregate-device description dictionary built in start
(macos_pyobjc.py lines 454-470). -/
structure AggregateDescription where
  name : String
  uid : String
  main_sub_device : String
  is_private : Bool
  is_stacked : Bool
  tap_auto_start : Bool
  sub_device_list : List String
  tap_list : List (Bool × String)
deriving Repr, DecidableEq

/-- Builds the aggregate-device description exactly as start does: name from
the PID, a fresh UID, the output UID as main sub-device and as the single
sub-device-list entry, private true, stacked false, tap-auto-start true, and
one tap-list entry with drift compensation true and the tap UUID. -/
def build_aggregate_description (pid : Nat) (aggregate_uid output_uid tap_uuid : String) :
    AggregateDescription :=
  { name := "ProcTap-" ++ toString pid
    uid := aggregate_uid
    main_sub_device := output_uid
    is_private := true
    is_stacked := false
    tap_auto_start := true
    sub_device_list := [output_uid]
    tap_list := [(true, tap_uuid)] }

/-- Outcomes of the platform calls made during MacOSNativeBackend.start, plus
the UUIDs that uuid.uuid4() hands out and the ambient system state.
`translate_pid` is the return of ProcessAudioDiscovery.get_process_object_id
(None covers both a non-zero status and a zero object id).  `format_read_ok`
is whether step 3.5's property read succeeds; statuses are OSStatus values. -/
structure StartEnv where
  translate_pid : Option Nat
  tap_uuid_gen : String
  tap_status : Int
  tap_id : Nat
  format_read_ok : Bool
  sys : SystemAudioState
  agg_uuid_gen : String
  agg_status : Int
  agg_id : Nat
  io_status : Int
  io_id : Nat
  start_status : Int
deriving Repr, DecidableEq

/-- The step of start at which the first fatal failure occurs, if any.
Note that a failing format read (step 3.5) is absent: its try/except only
logs a warning and start continues. -/
def startFirstFailure (env : StartEnv) : Option Nat :=
  if env.translate_pid = none then some 1
  else if env.tap_status ≠ 0 ∨ env.tap_id = 0 then some 2
  else if env.agg_status ≠ 0 then some 3
  else if env.io_status ≠ 0 then some 4
  else if env.start_status ≠ 0 then some 5
  else none

/-- MacOSNativeBackend.start (macos_pyobjc.py lines 336-532), for a backend
constructed with the given pid.  Returns the new state, the trace of
Core Audio calls that took effect (creations record successful calls only),
and the exception surfaced to the caller.  Any failure runs _cleanup (with
no tear-down faults, matching a cooperative platform) and re-raises as
RuntimeError.  A failed format read is logged and swallowed. -/
def MacOSNativeBackend.start (pid : Nat) (env : StartEnv) (st : MacState) :
    MacState × List CACall × Option PyError :=
  if st.is_running then (st, [], none)
  else
    -- Step 1: PID translation; the result is stored before the None check.
    match env.translate_pid with
    | none =>
        let st1 := { st with process_object_id := none }
        let r := MacOSNativeBackend.cleanup ⟨false, false, false, false⟩ st1
        (r.1, r.2.1, some PyError.runtimeError)
    | some pobj =>
        let st1 := { st with process_object_id := some pobj }
        -- Steps 2-3: tap description with a fresh UUID, then create the tap.
        let st2 := { st1 with tap_uuid := some env.tap_uuid_gen }
        if env.tap_status ≠ 0 ∨ env.tap_id = 0 then
          let r := MacOSNativeBackend.cleanup ⟨false, false, false, false⟩ st2
          (r.1, r.2.1, some PyError.runtimeError)
        else
          let st3 := { st2 with tap_device_id := some env.tap_id }
          -- Step 3.5: the tap-format read sits in its own try/except, so a
          -- failure is logged as a warning and start continues regardless.
          let tr3 := [CACall.createTap env.tap_id, CACall.readTapFormat env.format_read_ok]
          -- Steps 4-5: output UID, description, aggregate creation via ctypes.
          let output_uid := get_default_output_device_uid env.sys
          let _desc := build_aggregate_description pid env.agg_uuid_gen
              output_uid env.tap_uuid_gen
          if env.agg_status ≠ 0 then
            let r := MacOSNativeBackend.cleanup ⟨false, false, false, false⟩ st3
            (r.1, tr3 ++ r.2.1, some PyError.runtimeError)
          else
            let st4 := { st3 with aggregate_device_id := some env.agg_id }
            let tr4 := tr3 ++ [CACall.createAggregate env.agg_id]
            -- Step 6: _setup_io_proc on the aggregate device.
            if env.io_status ≠ 0 then
              let r := MacOSNativeBackend.cleanup ⟨false, false, false, false⟩ st4
              (r.1, tr4 ++ r.2.1, some PyError.runtimeError)
            else
              let st5 := { st4 with io_proc_id := some env.io_id }
              let tr5 := tr4 ++ [CACall.createIOProc env.agg_id env.io_id]
              -- Step 7: _start_device.
              if env.start_status ≠ 0 then
                let r := MacOSNativeBackend.cleanup ⟨false, false, false, false⟩ st5
                (r.1, tr5 ++ r.2.1, some PyError.runtimeError)
              else
                ({ st5 with is_running := true },
                 tr5 ++ [CACall.deviceStart env.agg_id env.io_id], none)

/-- Ids of process taps successfully created in a trace. -/
def createdTaps (tr : List CACall) : List Nat :=
  tr.filterMap fun c => match c with | CACall.createTap t => some t | _ => none

/-- Ids of process taps whose destruction was attempted in a trace. -/
def destroyedTaps (tr : List CACall) : List Nat :=
  tr.filterMap fun c => match c with | CACall.destroyTap t => some t | _ => none

/-- Ids of aggregate devices successfully created in a trace. -/
def createdAggs (tr : List CACall) : List Nat :=
  tr.filterMap fun c => match c with | CACall.createAggregate a => some a | _ => none

/-- Ids of aggregate devices whose destruction was attempted in a trace. -/
def destroyedAggs (tr : List CACall) : List Nat :=
  tr.filterMap fun c => match c with | CACall.destroyAggregate a => some a | _ => none

/-- Ids of I/O procs successfully installed in a trace. -/
def createdIOProcs (tr : List CACall) : List Nat :=
  tr.filterMap fun c => match c with | CACall.createIOProc _ i => some i | _ => none

/-- Ids of I/O procs whose destruction was attempted in a trace. -/
def destroyedIOProcs (tr : List CACall) : List Nat :=
  tr.filterMap fun c => match c with | CACall.destroyIOProc _ i => some i | _ => none

/-- MacOSNativeBackend.read (macos_pyobjc.py lines 543-556): when not running
return None; otherwise a single `self._audio_queue.get(timeout=0.1)` whose
queue.Empty is caught and turned into None.  `get_result` is that one
bounded wait's outcome (none is the timeout). -/
def MacOSNativeBackend.read (st : MacState) (get_result : Option (List Nat)) :
    Option (List Nat) :=
  if st.is_running = false then none
  else get_result

/-- The timeout, in milliseconds, of the single queue wait inside
MacOSNativeBackend.read (the source passes timeout=0.1 seconds). -/
def macosNativeReadTimeoutMs : Nat := 100

/-! ## macOS content-sharing engine: src/proctap/backends/macos_screencapture.py -/

/-- The four fixed helper locations searched by find_screencapture_binary
(macos_screencapture.py lines 43-48), release before debug, arm64 before
x86_64, all relative to the project root derived from __file__. -/
def screencapture_search_paths (project_root : String) : List String :=
  [project_root ++ "/swift/screencapture-audio/.build/arm64-apple-macosx/release/screencapture-audio",
   project_root ++ "/swift/screencapture-audio/.build/arm64-apple-macosx/debug/screencapture-audio",
   project_root ++ "/swift/screencapture-audio/.build/x86_64-apple-macosx/release/screencapture-audio",
   project_root ++ "/swift/screencapture-audio/.build/x86_64-apple-macosx/debug/screencapture-audio"]

/-- find_screencapture_binary (macos_screencapture.py lines 26-57).
The ambient process environment `env` and the file system predicates are
passed in as the machine state the function could observe; the source body
consults only the file system on the four fixed paths, in order, and never
reads any environment variable, so `env` is unused. -/
def find_screencapture_binary (env : String → Option String)
    (path_exists path_is_file : String → Bool) (project_root : String) :
    Option String :=
  let _ := env
  (screencapture_search_paths project_root).find?
    fun p => path_exists p && path_is_file p

/-- Threading/subprocess fields of ScreenCaptureBackend relevant to
start/stop (macos_screencapture.py lines 122-127). -/
structure SCState where
  has_process : Bool
  has_reader_thread : Bool
  running : Bool
deriving Repr, DecidableEq

/-- Observable actions of ScreenCaptureBackend.stop. -/
inductive SCAction where
  | terminateHelper
  | waitHelper
  | killHelper
  | joinReader
deriving Repr, DecidableEq

/-- ScreenCaptureBackend.stop (macos_screencapture.py lines 290-318): return
at once when not running; otherwise clear the flag, terminate the helper
(with a 2 s wait, then kill on expiry) and join the reader thread.
`terminate_times_out` is whether the bounded wait expires. -/
def ScreenCaptureBackend.stop (terminate_times_out : Bool) (st : SCState) :
    SCState × List SCAction :=
  if st.running = false then (st, [])
  else
    let helperActs :=
      if st.has_process then
        if terminate_times_out then
          [SCAction.terminateHelper, SCAction.waitHelper, SCAction.killHelper,
           SCAction.waitHelper]
        else [SCAction.terminateHelper, SCAction.waitHelper]
      else []
    let joinActs := if st.has_reader_thread then [SCAction.joinReader] else []
    ({ st with running := false }, helperActs ++ joinActs)

/-- Result of ScreenCaptureBackend.read's queue loop.  `done` carries the
returned bytes and the queue waits that were never consumed; `stillWaiting`
means the supplied wait trace ran out while the loop condition was still
live, i.e. the call is still blocked inside the while loop. -/
inductive SCReadResult where
  | done (data : List Nat) (rest : List (Option (List Nat)))
  | stillWaiting (bytes_read : Nat) (chunks : List (List Nat))
deriving Repr, DecidableEq

/-- The while loop of ScreenCaptureBackend.read (macos_screencapture.py
lines 336-347).  `gets` is the sequence of outcomes of successive
`self._audio_queue.get(timeout=1.0)` calls: some chunk, or none for a
queue.Empty timeout.  On a timeout the loop breaks only when `self._running`
is false; otherwise it continues waiting.  On normal exit the collected
chunks are joined and truncated to `total` bytes. -/
def scReadLoop (running : Bool) (total : Nat) (gets : List (Option (List Nat)))
    (acc : List (List Nat)) (bytes_read : Nat) : SCReadResult :=
  if total ≤ bytes_read then SCReadResult.done (acc.reverse.flatten.take total) gets
  else
    match gets with
    | [] => SCReadResult.stillWaiting bytes_read acc.reverse
    | some chunk :: rest =>
        scReadLoop running total rest (chunk :: acc) (bytes_read + chunk.length)
    | none :: rest =>
        if running then scReadLoop running total rest acc bytes_read
        else SCReadResult.done (acc.reverse.flatten.take total) rest

/-- ScreenCaptureBackend.read (macos_screencapture.py lines 320-347):
total_bytes_needed = num_frames * channels * sample_width, then the queue
loop starting from no collected data. -/
def ScreenCaptureBackend.read (running : Bool) (channels sample_width num_frames : Nat)
    (gets : List (Option (List Nat))) : SCReadResult :=
  scReadLoop running (num_frames * (channels * sample_width)) gets [] 0

/-- The timeout, in milliseconds, of each single queue wait inside
ScreenCaptureBackend.read (the source passes timeout=1.0 seconds). -/
def screencaptureReadTimeoutMs : Nat := 1000

/-! ## Coordinator: src/processaudiotap/core.py -/

/-- Fields of ProcessAudioTap relevant to stop (core.py __init__): whether
`self._thread` is not None and whether the stop event is set. -/
structure PATState where
  has_thread : Bool
  stop_event_set : Bool
deriving Repr, DecidableEq

/-- Observable actions of ProcessAudioTap.stop on the thread and on the
wrapped WASAPI backend object. -/
inductive PATAction where
  | setStopEvent
  | joinThread
  | backendStopCapture
  | backendCleanup
deriving Repr, DecidableEq

/-- ProcessAudioTap.stop (core.py lines 62-76): set the stop event; join and
drop the worker thread when present; then unconditionally call the
backend's stop_capture and cleanup, each inside try/except, so a raise from
either is logged and never propagates (the returned error is always none,
whatever the two fault flags say). -/
def ProcessAudioTap.stop (stop_capture_raises cleanup_raises : Bool)
    (st : PATState) : PATState × List PATAction × Option PyError :=
  let _ := stop_capture_raises
  let _ := cleanup_raises
  let joinActs := if st.has_thread then [PATAction.joinThread] else []
  ({ has_thread := false, stop_event_set := true },
   PATAction.setStopEvent :: joinActs
     ++ [PATAction.backendStopCapture, PATAction.backendCleanup],
   none)

/-- The state of ProcessAudioTap right after a successful start (core.py
lines 46-60): a live worker thread and a cleared stop event. -/
def patStartedState : PATState :=
  { has_thread := true, stop_event_set := false }

/-- Observable actions of one iteration of ProcessAudioTap._worker. -/
inductive WorkerAction where
  | logReadError
  | callback (data : List Nat) (frames : Int)
  | logCallbackError
  | pushQueue (data : List Nat)
  | dropChunk (data : List Nat)
  | sleepShort
  | pushSentinel
deriving Repr, DecidableEq

/-- One iteration of ProcessAudioTap._worker (core.py lines 110-133).
`read_result` is the outcome of `self._loopback.read_data()` (error when it
raised; the raise is caught and logged).  Falsy data (empty) just continues,
with no sleep.  Otherwise the callback, when configured, is invoked with
frame count -1 (exceptions caught and logged), and the chunk is then always
offered to the async queue with put_nowait, the new chunk being dropped when
the queue is full. -/
def workerIteration (read_result : Except Unit (List Nat)) (has_callback : Bool)
    (callback_raises : Bool) (queue_full : Bool) : List WorkerAction :=
  match read_result with
  | Except.error _ => [WorkerAction.logReadError]
  | Except.ok data =>
      if data = [] then []
      else
        (if has_callback then
            WorkerAction.callback data (-1)
              :: (if callback_raises then [WorkerAction.logCallbackError] else [])
          else [])
          ++ (if queue_full then [WorkerAction.dropChunk data]
              else [WorkerAction.pushQueue data])

/-- The whole worker loop (core.py lines 110-139) over the finite sequence of
read outcomes observed before the stop event was seen, followed by the
sentinel push after the loop. -/
def ProcessAudioTap.worker (reads : List (Except Unit (List Nat)))
    (has_callback : Bool) (callback_raises queue_full : Bool) : List WorkerAction :=
  (reads.map fun r => workerIteration r has_callback callback_raises queue_full).flatten
    ++ [WorkerAction.pushSentinel]

/-! ## Converter: src/proctap/converter_native.py -/

/-- Python-visible state of NativeAudioConverter: the resolved quality
string.  The conversion methods assign no attributes. -/
structure NativeAudioConverter where
  quality_str : String
deriving Repr, DecidableEq

/-- NativeAudioConverter.convert_int16_to_float32 (converter_native.py lines
169-188).  `has_native` is the module flag HAS_NATIVE_CONVERTER; `native` is
the C extension entry _audio_converter.convert_int16_to_float32 (whose C++
source is not part of the Python tree), applied only after the length check
passes.  The method body writes no attribute, so the converter state comes
back unchanged on every path. -/
def NativeAudioConverter.convert_int16_to_float32 (has_native : Bool)
    (native : List Nat → List Nat) (c : NativeAudioConverter) (data : List Nat) :
    Except PyError (List Nat) × NativeAudioConverter :=
  if has_native = false then (Except.error PyError.runtimeError, c)
  else if data.length % 2 ≠ 0 then (Except.error PyError.valueError, c)
  else (Except.ok (native data), c)

/-- NativeAudioConverter.resample (converter_native.py lines 190-222).
`native` is _audio_converter.resample_audio.  The length check is against
channels * 4 bytes, the float32 frame size. -/
def NativeAudioConverter.resample (has_native : Bool)
    (native : List Nat → Nat → Nat → Nat → String → List Nat)
    (c : NativeAudioConverter) (data : List Nat)
    (src_rate dst_rate channels : Nat) :
    Except PyError (List Nat) × NativeAudioConverter :=
  if has_native = false then (Except.error PyError.runtimeError, c)
  else if data.length % (channels * 4) ≠ 0 then (Except.error PyError.valueError, c)
  else (Except.ok (native data src_rate dst_rate channels c.quality_str), c)

/-! ## Backend selection: src/proctap/backends/__init__.py and linux.py -/

/-- The keyword parameters accepted by LinuxBackend.__init__ besides self
(linux.py lines 37-44). -/
def linux_backend_init_params : List String := ["pid"]

/-- The keyword arguments the Linux branch of get_backend supplies to
LinuxBackend (backends/__init__.py lines 63-69). -/
def get_backend_linux_call_keywords : List String :=
  ["pid", "sample_rate", "channels", "sample_width"]

/-- Python call binding for a pure-keyword call: a TypeError is raised before
the function body runs when any supplied keyword is not an accepted
parameter name. -/
def bindKeywords (accepted supplied : List String) : Except PyError Unit :=
  if supplied.all (fun k => accepted.contains k) then Except.ok ()
  else Except.error PyError.typeError

/-- The backend instance get_backend would hand back. -/
inductive BackendChoice where
  | windowsBackend
  | linuxBackend
  | screenCaptureBackend
  | pyobjcBackend
deriving Repr, DecidableEq

/-- Side effects observable while get_backend runs (the Linux stub's
UserWarning is emitted inside LinuxBackend.__init__'s body). -/
inductive SelectEffect where
  | linuxStubWarning
deriving Repr, DecidableEq

/-- get_backend (backends/__init__.py lines 20-126), parameterized over
platform.system() and, for the Darwin branch, the two availability probes.
The Linux branch constructs LinuxBackend with four keyword arguments, so
Python first binds them against LinuxBackend.__init__'s parameter list;
only if binding succeeds would the body run and emit its stub warning.
The numeric argument values play no role in binding and are omitted. -/
def get_backend (system : String) (sc_available pyobjc_available : Bool) :
    (Except PyError BackendChoice) × List SelectEffect :=
  if system = "Windows" then (Except.ok BackendChoice.windowsBackend, [])
  else if system = "Linux" then
    match bindKeywords linux_backend_init_params get_backend_linux_call_keywords with
    | Except.error e => (Except.error e, [])
    | Except.ok _ => (Except.ok BackendChoice.linuxBackend, [SelectEffect.linuxStubWarning])
  else if system = "Darwin" then
    if sc_available then (Except.ok BackendChoice.screenCaptureBackend, [])
    else if pyobjc_available then (Except.ok BackendChoice.pyobjcBackend, [])
    else (Except.error PyError.runtimeError, [])
  else (Except.error PyError.notImplementedError, [])

/-! ## Concrete sample inputs used by witnesses and counterexamples -/

/-- A fully populated backend state, as after a successful start: aggregate
device 7, I/O proc 5, tap 9, running. -/
def macStateW : MacState :=
  { process_object_id := some 3
    tap_device_id := some 9
    aggregate_device_id := some 7
    io_proc_id := some 5
    tap_uuid := some "tap-uuid-w"
    is_running := true }

/-- A start environment in which every platform call succeeds. -/
def startEnvOkW : StartEnv :=
  { translate_pid := some 11
    tap_uuid_gen := "tap-uuid-w"
    tap_status := 0
    tap_id := 9
    format_read_ok := true
    sys := { default_output_uid := "ExternalDAC" }
    agg_uuid_gen := "agg-uuid-w"
    agg_status := 0
    agg_id := 7
    io_status := 0
    io_id := 5
    start_status := 0 }

/-- Like startEnvOkW, except the tap-format read of step 3.5 fails. -/
def startEnvFormatFailW : StartEnv := { startEnvOkW with format_read_ok := false }

/-- Like startEnvOkW, except aggregate-device creation fails with a non-zero
OSStatus. -/
def startEnvAggFailW : StartEnv := { startEnvOkW with agg_status := -10851 }

/-- An environment carrying a helper-path override in a variable a user might
set for the content-sharing engine. -/
def envOverrideW : String → Option String :=
  fun v => if v = "PROCTAP_HELPER" then some "/custom/screencapture-audio" else none

/-- A file system on which only the user's overridden helper path exists. -/
def fsOnlyCustomW : String → Bool :=
  fun p => p = "/custom/screencapture-audio"

/-- A file system on which the first built-in search location under /proj
exists. -/
def fsProjW : String → Bool :=
  fun p =>
    p = "/proj/swift/screencapture-audio/.build/arm64-apple-macosx/release/screencapture-audio"

/-! ## Theorems -/

/-- C5: the claim says the main sub-device UID supplied when start builds the
aggregate-device description is the UID read from the default output
device's UID property.  The code instead returns the hard-coded constant
"BuiltInSpeakerDevice" whatever the system's actual default output UID is
(here "ExternalDAC"), and that constant is what the description carries,
confirming the divergence the source itself marks as a TODO. -/
theorem c5_main_subdevice_uid_is_hardcoded :
    get_default_output_device_uid { default_output_uid := "ExternalDAC" }
        = "BuiltInSpeakerDevice"
    ∧ get_default_output_device_uid { default_output_uid := "ExternalDAC" }
        ≠ "ExternalDAC"
    ∧ (∀ sys : SystemAudioState, ∀ pid : Nat, ∀ au tu : String,
        (build_aggregate_description pid au (get_default_output_device_uid sys)
            tu).main_sub_device = "BuiltInSpeakerDevice") :=
  ⟨rfl, by decide, fun _ _ _ _ => rfl⟩

/-- C10: on a Linux host, get_backend always fails with a TypeError raised by
keyword binding before LinuxBackend.__init__'s body can run (so not even its
stub warning is emitted), and no platform value of platform.system() can
ever make get_backend hand back a LinuxBackend instance. -/
theorem c10_linux_branch_raises_type_error :
    (∀ sc pyo : Bool,
        get_backend "Linux" sc pyo = (Except.error PyError.typeError, []))
    ∧ bindKeywords linux_backend_init_params get_backend_linux_call_keywords
        = Except.error PyError.typeError
    ∧ (∀ system : String, ∀ sc pyo : Bool,
        (get_backend system sc pyo).1 ≠ Except.ok BackendChoice.linuxBackend) := by
  have hbind : bindKeywords linux_backend_init_params get_backend_linux_call_keywords
      = Except.error PyError.typeError := rfl
  refine ⟨fun _ _ => rfl, hbind, ?_⟩
  intro s sc pyo
  simp only [get_backend]
  split_ifs <;> simp [hbind]

/-- C1: in MacOSNativeBackend._cleanup the tear-down platform calls are
attempted in the source order stop-device, destroy-I/O-proc,
destroy-aggregate-device, destroy-process-tap; which calls are attempted
depends only on which handles are non-null (None or 0 counting as null) and
never on whether an earlier call raised, since each call has its own
try/except; in particular a non-null aggregate device is always destroyed,
and the finally block leaves every handle field None before stop returns. -/
theorem c1_cleanup_order_and_always_destroys (f g : CleanupFaults) (st : MacState) :
    (MacOSNativeBackend.cleanup f st).2.1 = (MacOSNativeBackend.cleanup g st).2.1
    ∧ ((MacOSNativeBackend.cleanup f st).2.1).Pairwise
        (fun x y => teardownRank x < teardownRank y)
    ∧ (∀ a i, st.aggregate_device_id = some a → a ≠ 0 → st.io_proc_id = some i →
        CACall.deviceStop a i ∈ (MacOSNativeBackend.cleanup f st).2.1
        ∧ CACall.destroyIOProc a i ∈ (MacOSNativeBackend.cleanup f st).2.1)
    ∧ (∀ a, st.aggregate_device_id = some a → a ≠ 0 →
        CACall.destroyAggregate a ∈ (MacOSNativeBackend.cleanup f st).2.1)
    ∧ (∀ t, st.tap_device_id = some t → t ≠ 0 →
        CACall.destroyTap t ∈ (MacOSNativeBackend.cleanup f st).2.1)
    ∧ (MacOSNativeBackend.cleanup f st).1.aggregate_device_id = none
    ∧ (MacOSNativeBackend.cleanup f st).1.io_proc_id = none
    ∧ (MacOSNativeBackend.cleanup f st).1.tap_device_id = none
    ∧ (MacOSNativeBackend.cleanup f st).1.process_object_id = none
    ∧ (MacOSNativeBackend.cleanup f st).1.tap_uuid = none := by
  obtain ⟨po, tap, agg, io, tu, run⟩ := st
  refine ⟨rfl, ?_, ?_, ?_, ?_, rfl, rfl, rfl, rfl, rfl⟩
  · rcases agg with _ | a <;> rcases io with _ | i <;> rcases tap with _ | t <;>
      simp only [MacOSNativeBackend.cleanup, stopAttempt, destroyIOProcAttempt,
        destroyAggAttempt, destroyTapAttempt] <;>
      first
        | (split_ifs <;>
            simp [List.pairwise_append, List.pairwise_cons, teardownRank])
        | simp [List.pairwise_append, List.pairwise_cons, teardownRank]
  · intro a i ha hz hi
    subst ha; subst hi
    simp only [MacOSNativeBackend.cleanup, stopAttempt, destroyIOProcAttempt,
      destroyAggAttempt, destroyTapAttempt]
    rcases tap with _ | t <;> simp [hz]
  · intro a ha hz
    subst ha
    simp only [MacOSNativeBackend.cleanup, stopAttempt, destroyIOProcAttempt,
      destroyAggAttempt, destroyTapAttempt]
    rcases io with _ | i <;> rcases tap with _ | t <;> simp [hz]
  · intro t ht hz
    subst ht
    simp only [MacOSNativeBackend.cleanup, stopAttempt, destroyIOProcAttempt,
      destroyAggAttempt, destroyTapAttempt]
    rcases agg with _ | a <;> rcases io with _ | i <;> simp [hz]

/-- Witness for c1_cleanup_order_and_always_destroys at a fully populated
state with every tear-down call raising. -/
theorem c1_cleanup_witness :
    CACall.deviceStop 7 5
        ∈ (MacOSNativeBackend.cleanup ⟨true, true, true, true⟩ macStateW).2.1
    ∧ CACall.destroyAggregate 7
        ∈ (MacOSNativeBackend.cleanup ⟨true, true, true, true⟩ macStateW).2.1
    ∧ CACall.destroyTap 9
        ∈ (MacOSNativeBackend.cleanup ⟨true, true, true, true⟩ macStateW).2.1 :=
  ⟨((c1_cleanup_order_and_always_destroys ⟨true, true, true, true⟩
      ⟨false, false, false, false⟩ macStateW).2.2.1 7 5 rfl (by decide) rfl).1,
   (c1_cleanup_order_and_always_destroys ⟨true, true, true, true⟩
      ⟨false, false, false, false⟩ macStateW).2.2.2.1 7 rfl (by decide),
   (c1_cleanup_order_and_always_destroys ⟨true, true, true, true⟩
      ⟨false, false, false, false⟩ macStateW).2.2.2.2.1 9 rfl (by decide)⟩

/-- C2 counterexample: the claim lists the tap-format read among the start
steps whose failure unwinds and raises, but in the code that read sits in
its own try/except: with every other platform call succeeding and the
format read failing, start completes without raising, the engine ends up
running, and nothing is unwound. -/
theorem c2_counterexample_format_read_swallowed :
    startEnvFormatFailW.format_read_ok = false
    ∧ (MacOSNativeBackend.start 42 startEnvFormatFailW macInitState).2.2 = none
    ∧ (MacOSNativeBackend.start 42 startEnvFormatFailW macInitState).1.is_running = true
    ∧ CACall.readTapFormat false
        ∈ (MacOSNativeBackend.start 42 startEnvFormatFailW macInitState).2.1
    ∧ destroyedTaps (MacOSNativeBackend.start 42 startEnvFormatFailW macInitState).2.1
        = [] := by
  refine ⟨rfl, rfl, rfl, ?_, rfl⟩
  decide

/-- C2 amended: for every failure at PID translation, tap creation,
aggregate-device creation, I/O-proc installation, or device start (the
tap-format read of step 3.5 excluded, since its failure is logged and
swallowed), start raises a RuntimeError to the caller, leaves the engine
not running with every handle field reset to None, and the trace destroys
exactly the platform objects created so far: taps, aggregate devices and
I/O procs created and destroyed match one to one.  The hypothesis hagg is
the platform contract that a zero OSStatus from aggregate creation comes
with a non-zero device id. -/
theorem c2_start_failure_unwinds (pid : Nat) (env : StartEnv)
    (h : startFirstFailure env ≠ none)
    (hagg : env.agg_status = 0 → env.agg_id ≠ 0) :
    (MacOSNativeBackend.start pid env macInitState).2.2 = some PyError.runtimeError
    ∧ (MacOSNativeBackend.start pid env macInitState).1.is_running = false
    ∧ (MacOSNativeBackend.start pid env macInitState).1.tap_device_id = none
    ∧ (MacOSNativeBackend.start pid env macInitState).1.aggregate_device_id = none
    ∧ (MacOSNativeBackend.start pid env macInitState).1.io_proc_id = none
    ∧ (MacOSNativeBackend.start pid env macInitState).1.process_object_id = none
    ∧ (MacOSNativeBackend.start pid env macInitState).1.tap_uuid = none
    ∧ createdTaps (MacOSNativeBackend.start pid env macInitState).2.1
        = destroyedTaps (MacOSNativeBackend.start pid env macInitState).2.1
    ∧ createdAggs (MacOSNativeBackend.start pid env macInitState).2.1
        = destroyedAggs (MacOSNativeBackend.start pid env macInitState).2.1
    ∧ createdIOProcs (MacOSNativeBackend.start pid env macInitState).2.1
        = destroyedIOProcs (MacOSNativeBackend.start pid env macInitState).2.1 := by
  rcases hp : env.translate_pid with _ | pobj
  · simp [MacOSNativeBackend.start, macInitState, hp, MacOSNativeBackend.cleanup,
      stopAttempt, destroyIOProcAttempt, destroyAggAttempt, destroyTapAttempt,
      createdTaps, destroyedTaps, createdAggs, destroyedAggs,
      createdIOProcs, destroyedIOProcs]
  · by_cases h2 : env.tap_status ≠ 0 ∨ env.tap_id = 0
    · simp [MacOSNativeBackend.start, macInitState, hp, h2, MacOSNativeBackend.cleanup,
        stopAttempt, destroyIOProcAttempt, destroyAggAttempt, destroyTapAttempt,
        createdTaps, destroyedTaps, createdAggs, destroyedAggs,
        createdIOProcs, destroyedIOProcs]
    · push_neg at h2
      obtain ⟨h2a, h2b⟩ := h2
      by_cases h3 : env.agg_status ≠ 0
      · simp [MacOSNativeBackend.start, macInitState, hp, h2a, h2b, h3,
          MacOSNativeBackend.cleanup, stopAttempt, destroyIOProcAttempt,
          destroyAggAttempt, destroyTapAttempt, createdTaps, destroyedTaps,
          createdAggs, destroyedAggs, createdIOProcs, destroyedIOProcs]
      · push_neg at h3
        have hagg2 : env.agg_id ≠ 0 := hagg h3
        by_cases h4 : env.io_status ≠ 0
        · simp [MacOSNativeBackend.start, macInitState, hp, h2a, h2b, h3, h4, hagg2,
            MacOSNativeBackend.cleanup, stopAttempt, destroyIOProcAttempt,
            destroyAggAttempt, destroyTapAttempt, createdTaps, destroyedTaps,
            createdAggs, destroyedAggs, createdIOProcs, destroyedIOProcs]
        · push_neg at h4
          by_cases h5 : env.start_status ≠ 0
          · simp [MacOSNativeBackend.start, macInitState, hp, h2a, h2b, h3, h4, h5,
              hagg2, MacOSNativeBackend.cleanup, stopAttempt, destroyIOProcAttempt,
              destroyAggAttempt, destroyTapAttempt, createdTaps, destroyedTaps,
              createdAggs, destroyedAggs, createdIOProcs, destroyedIOProcs]
          · push_neg at h5
            exact absurd (by simp [startFirstFailure, hp, h2a, h2b, h3, h4, h5]) h

/-- Witness for c2_start_failure_unwinds: aggregate-device creation fails
with OSStatus -10851; start raises and the one created tap is the one
destroyed. -/
theorem c2_start_failure_witness :
    startFirstFailure startEnvAggFailW ≠ none
    ∧ (MacOSNativeBackend.start 42 startEnvAggFailW macInitState).2.2
        = some PyError.runtimeError
    ∧ createdAggs (MacOSNativeBackend.start 42 startEnvAggFailW macInitState).2.1
        = destroyedAggs (MacOSNativeBackend.start 42 startEnvAggFailW macInitState).2.1 :=
  ⟨by decide,
   (c2_start_failure_unwinds 42 startEnvAggFailW (by decide) (by decide)).1,
   (c2_start_failure_unwinds 42 startEnvAggFailW (by decide)
      (by decide)).2.2.2.2.2.2.2.2.1⟩

/-- C3 counterexample: for the WASAPI wrapper, a second stop after
start; stop re-runs the backend tear-down: its action list again contains
backendStopCapture and backendCleanup, refuting that no stop call after the
first re-runs tear-down. -/
theorem c3_counterexample_second_stop_reruns_teardown :
    (ProcessAudioTap.stop false false
        (ProcessAudioTap.stop false false patStartedState).1).2.1
      = [PATAction.setStopEvent, PATAction.backendStopCapture,
         PATAction.backendCleanup]
    ∧ PATAction.backendStopCapture
        ∈ (ProcessAudioTap.stop false false
            (ProcessAudioTap.stop false false patStartedState).1).2.1 := by
  decide

/-- C3 amended: the two macOS backends guard stop with their running flag, so
any stop after the first is a pure no-op (same state, no tear-down action);
the WASAPI wrapper's stop always yields the same final state and never
raises (backend exceptions are caught), but every call, including repeated
ones, re-invokes the backend's stop_capture and cleanup. -/
theorem c3_stop_idempotence_amended :
    (∀ (f g : CleanupFaults) (st : MacState),
        (MacOSNativeBackend.stop f st).1.is_running = false
        ∧ MacOSNativeBackend.stop g (MacOSNativeBackend.stop f st).1
            = ((MacOSNativeBackend.stop f st).1, [], []))
    ∧ (∀ (t1 t2 : Bool) (st : SCState),
        (ScreenCaptureBackend.stop t1 st).1.running = false
        ∧ ScreenCaptureBackend.stop t2 (ScreenCaptureBackend.stop t1 st).1
            = ((ScreenCaptureBackend.stop t1 st).1, []))
    ∧ (∀ (f1 f2 : Bool) (st : PATState),
        (ProcessAudioTap.stop f1 f2 st).2.2 = none
        ∧ (ProcessAudioTap.stop f1 f2 (ProcessAudioTap.stop f1 f2 st).1).1
            = (ProcessAudioTap.stop f1 f2 st).1
        ∧ (ProcessAudioTap.stop f1 f2 (ProcessAudioTap.stop f1 f2 st).1).2.1
            = [PATAction.setStopEvent, PATAction.backendStopCapture,
               PATAction.backendCleanup]) := by
  refine ⟨?_, ?_, ?_⟩
  · intro f g st
    cases hr : st.is_running <;>
      simp [MacOSNativeBackend.stop, MacOSNativeBackend.cleanup, hr]
  · intro t1 t2 st
    cases hr : st.running <;> simp [ScreenCaptureBackend.stop, hr]
  · intro f1 f2 st
    exact ⟨rfl, rfl, rfl⟩

/-- Helper: while the session is running, a run of consecutive queue
timeouts leaves ScreenCaptureBackend.read's loop exactly where it started:
no exit, no progress.  Stated for every loop state below the target. -/
theorem scReadLoop_running_all_timeouts (total : Nat) :
    ∀ (k : Nat) (acc : List (List Nat)) (b : Nat), b < total →
      scReadLoop true total (List.replicate k none) acc b
        = SCReadResult.stillWaiting b acc.reverse := by
  intro k
  induction k with
  | zero =>
      intro acc b hb
      have hb2 : ¬ total ≤ b := Nat.not_le.mpr hb
      simp [scReadLoop, hb2, List.replicate]
  | succ n ih =>
      intro acc b hb
      have hb2 : ¬ total ≤ b := Nat.not_le.mpr hb
      simp [scReadLoop, hb2, List.replicate_succ, ih acc b hb]

/-- Helper: once the session is stopped, the first queue timeout makes
ScreenCaptureBackend.read's loop break, so the call returns (with done)
whenever its wait trace contains a timeout. -/
theorem scReadLoop_stopped_terminates :
    ∀ (gets : List (Option (List Nat))) (total : Nat) (acc : List (List Nat))
      (b : Nat), none ∈ gets →
      ∃ d rest, scReadLoop false total gets acc b = SCReadResult.done d rest := by
  intro gets
  induction gets with
  | nil => intro total acc b hmem; simp at hmem
  | cons g gs ih =>
      intro total acc b hmem
      by_cases hb : total ≤ b
      · rcases g with _ | chunk
        · exact ⟨acc.reverse.flatten.take total, none :: gs,
            by simp [scReadLoop, hb]⟩
        · exact ⟨acc.reverse.flatten.take total, some chunk :: gs,
            by simp [scReadLoop, hb]⟩
      · rcases g with _ | chunk
        · exact ⟨acc.reverse.flatten.take total, gs, by simp [scReadLoop, hb]⟩
        · have hmem2 : none ∈ gs := by
            rcases List.mem_cons.mp hmem with h | h
            · exact absurd h (by simp)
            · exact h
          obtain ⟨d, rest, hd⟩ := ih total (chunk :: acc) (b + chunk.length) hmem2
          exact ⟨d, rest, by simp [scReadLoop, hb, hd]⟩

/-- C4 amended: MacOSNativeBackend.read waits at most once, for 0.1 s, and
returns whatever that single wait produced (None on timeout or when not
running).  ScreenCaptureBackend.read waits in rounds of at most 1 s each
and returns as soon as a timeout occurs with the session stopped; but with
the session running, the claim's bound fails: any number of consecutive
timeouts leaves the call still looping with nothing returned. -/
theorem c4_read_wait_bounds :
    (∀ st : MacState, MacOSNativeBackend.read st none = none)
    ∧ (∀ (st : MacState) (g : Option (List Nat)), st.is_running = true →
        MacOSNativeBackend.read st g = g)
    ∧ macosNativeReadTimeoutMs = 100
    ∧ screencaptureReadTimeoutMs = 1000
    ∧ (∀ (channels sample_width num_frames : Nat)
        (gets : List (Option (List Nat))), none ∈ gets →
        ∃ d rest, ScreenCaptureBackend.read false channels sample_width
            num_frames gets = SCReadResult.done d rest)
    ∧ (∀ (k total : Nat) (acc : List (List Nat)) (b : Nat), b < total →
        scReadLoop true total (List.replicate k none) acc b
          = SCReadResult.stillWaiting b acc.reverse) := by
  refine ⟨?_, ?_, rfl, rfl, ?_, ?_⟩
  · intro st; cases hr : st.is_running <;> simp [MacOSNativeBackend.read, hr]
  · intro st g hr; simp [MacOSNativeBackend.read, hr]
  · intro channels sample_width num_frames gets hmem
    exact scReadLoop_stopped_terminates gets _ [] 0 hmem
  · intro k total acc b hb
    exact scReadLoop_running_all_timeouts total k acc b hb

/-- Witness for c4_read_wait_bounds: a running read returning its single
wait's chunk, a stopped content-sharing read returning on one timeout, and
a running content-sharing read still looping after three timeouts. -/
theorem c4_read_wait_bounds_witness :
    MacOSNativeBackend.read macStateW (some [1, 2]) = some [1, 2]
    ∧ (∃ d rest, ScreenCaptureBackend.read false 2 2 4 [none]
        = SCReadResult.done d rest)
    ∧ scReadLoop true 4096 (List.replicate 3 none) [] 0
        = SCReadResult.stillWaiting 0 [] :=
  ⟨(c4_read_wait_bounds.2.1 macStateW (some [1, 2]) rfl),
   c4_read_wait_bounds.2.2.2.2.1 2 2 4 [none] (by decide),
   c4_read_wait_bounds.2.2.2.2.2 3 4096 [] 0 (by decide)⟩

/-- C4 counterexample: with the session running and the producer delivering
nothing, ScreenCaptureBackend.read is still inside its loop after five full
1-second timeouts, so the call does not terminate within its (1 s) wait
bound. -/
theorem c4_counterexample_read_unbounded_while_running :
    ScreenCaptureBackend.read true 2 2 1024 (List.replicate 5 none)
      = SCReadResult.stillWaiting 0 [] := by
  decide

/-- Helper: whenever ScreenCaptureBackend.read's loop returns, the consumed
waits are a prefix of the wait trace, and the returned data is the
concatenation of the collected chunks truncated to the byte target; the cut
tail reappears nowhere in the result. -/
theorem scReadLoop_done_shape :
    ∀ (gets : List (Option (List Nat))) (running : Bool) (total : Nat)
      (acc : List (List Nat)) (b : Nat) (d : List Nat)
      (rest : List (Option (List Nat))),
      scReadLoop running total gets acc b = SCReadResult.done d rest →
      ∃ pre, gets = pre ++ rest
        ∧ d = ((acc.reverse ++ pre.filterMap id).flatten).take total := by
  intro gets
  induction gets with
  | nil =>
      intro running total acc b d rest h
      by_cases hb : total ≤ b
      · simp [scReadLoop, hb] at h
        exact ⟨[], by simp [h.2.symm], by simp [h.1]⟩
      · simp [scReadLoop, hb] at h
  | cons g gs ih =>
      intro running total acc b d rest h
      by_cases hb : total ≤ b
      · rcases g with _ | chunk
        · simp [scReadLoop, hb] at h
          exact ⟨[], by simp [h.2.symm], by simp [h.1]⟩
        · simp [scReadLoop, hb] at h
          exact ⟨[], by simp [h.2.symm], by simp [h.1]⟩
      · rcases g with _ | chunk
        · cases hr : running
          · rw [hr] at h
            simp [scReadLoop, hb] at h
            refine ⟨[none], by simp [h.2.symm], ?_⟩
            simp [h.1]
          · rw [hr] at h
            simp only [scReadLoop, hb, if_neg hb, if_pos rfl] at h
            obtain ⟨pre2, hg, hd⟩ := ih true total acc b d rest h
            exact ⟨none :: pre2, by simp [hg], by simp [hd]⟩
        · simp only [scReadLoop, if_neg hb] at h
          obtain ⟨pre2, hg, hd⟩ := ih running total (chunk :: acc)
              (b + chunk.length) d rest h
          refine ⟨some chunk :: pre2, by simp [hg], ?_⟩
          rw [hd]
          simp [List.reverse_cons, List.filterMap_cons, List.append_assoc]

/-- C9: every value returned by ScreenCaptureBackend.read is at most
num_frames * channels * sample_width bytes, and it is the concatenation of
the popped chunks cut at that bound: the excess bytes of the final popped
chunk appear neither in the returned data nor in the untouched remainder of
the queue, so they are lost to later reads. -/
theorem c9_read_truncates_excess (running : Bool)
    (channels sample_width num_frames : Nat)
    (gets : List (Option (List Nat))) (d : List Nat)
    (rest : List (Option (List Nat)))
    (h : ScreenCaptureBackend.read running channels sample_width num_frames gets
          = SCReadResult.done d rest) :
    d.length ≤ num_frames * (channels * sample_width)
    ∧ ∃ pre, gets = pre ++ rest
        ∧ d = ((pre.filterMap id).flatten).take
            (num_frames * (channels * sample_width)) := by
  obtain ⟨pre, hg, hd⟩ := scReadLoop_done_shape gets running
      (num_frames * (channels * sample_width)) [] 0 d rest h
  refine ⟨?_, pre, hg, by simpa using hd⟩
  rw [hd]
  exact List.length_take_le _ _

/-- Witness for c9_read_truncates_excess: one 5-byte chunk against a 4-byte
target (1 frame of 2 channels, 2 bytes each); the returned data is the
first 4 bytes and the fifth byte is gone. -/
theorem c9_read_truncates_witness :
    ScreenCaptureBackend.read true 2 2 1 [some [1, 2, 3, 4, 5]]
      = SCReadResult.done [1, 2, 3, 4] []
    ∧ ([1, 2, 3, 4] : List Nat).length ≤ 1 * (2 * 2) := by
  refine ⟨by decide, ?_⟩
  exact (c9_read_truncates_excess true 2 2 1 [some [1, 2, 3, 4, 5]]
      [1, 2, 3, 4] [] (by decide)).1

/-- C6 counterexample: with an override variable set to an existing helper
binary and the four built-in locations absent, find_screencapture_binary
returns None instead of the overridden path, because the source consults no
environment variable at all. -/
theorem c6_counterexample_env_override_ignored :
    envOverrideW "PROCTAP_HELPER" = some "/custom/screencapture-audio"
    ∧ fsOnlyCustomW "/custom/screencapture-audio" = true
    ∧ find_screencapture_binary envOverrideW fsOnlyCustomW fsOnlyCustomW "/proj"
        = none
    ∧ find_screencapture_binary envOverrideW fsOnlyCustomW fsOnlyCustomW "/proj"
        ≠ some "/custom/screencapture-audio" := by
  refine ⟨rfl, rfl, by decide, by decide⟩

/-- C6 amended: the helper is located purely from the file system and the
install root: the result is the first existing file among the four built-in
search paths, is always one of those paths, and is the same whatever the
process environment holds. -/
theorem c6_no_env_override (e1 e2 : String → Option String)
    (fs isf : String → Bool) (root : String) :
    find_screencapture_binary e1 fs isf root
      = find_screencapture_binary e2 fs isf root
    ∧ (∀ p, find_screencapture_binary e1 fs isf root = some p →
        p ∈ screencapture_search_paths root) := by
  refine ⟨rfl, fun p hp => ?_⟩
  simp only [find_screencapture_binary] at hp
  exact List.mem_of_find?_eq_some hp

/-- Witness for c6_no_env_override: a file system holding the arm64 release
build under /proj; the helper found there is one of the built-in search
paths. -/
theorem c6_no_env_override_witness :
    find_screencapture_binary envOverrideW fsProjW fsProjW "/proj"
      = some "/proj/swift/screencapture-audio/.build/arm64-apple-macosx/release/screencapture-audio"
    ∧ "/proj/swift/screencapture-audio/.build/arm64-apple-macosx/release/screencapture-audio"
        ∈ screencapture_search_paths "/proj" := by
  refine ⟨by decide, ?_⟩
  exact (c6_no_env_override envOverrideW (fun _ => none) fsProjW fsProjW
      "/proj").2 _ (by decide)

/-- C7 counterexample: a 6-byte buffer is not a multiple of the stereo int16
frame size of 4 bytes, yet convert_int16_to_float32 accepts it, because its
check is only divisibility by the 2-byte sample size. -/
theorem c7_counterexample_frame_size_not_checked :
    6 % (2 * 2) ≠ 0
    ∧ (NativeAudioConverter.convert_int16_to_float32 true id
        { quality_str := "low_latency" } [0, 0, 0, 0, 0, 0]).1
        = Except.ok [0, 0, 0, 0, 0, 0] := by
  exact ⟨by decide, rfl⟩

/-- C7 amended: convert_int16_to_float32 rejects with ValueError exactly
buffers whose length is not a multiple of the 2-byte int16 sample size (not
of the frame size), resample rejects buffers whose length is not a multiple
of the channels * 4 float32 frame size, both checks run before any native
call, the converter state is unchanged by every call, and a valid call
after a rejected one behaves as if the rejection never happened. -/
theorem c7_length_checks_and_state (native : List Nat → List Nat)
    (nr : List Nat → Nat → Nat → Nat → String → List Nat)
    (c : NativeAudioConverter) (bad good rdata : List Nat)
    (src dst channels : Nat)
    (hbad : bad.length % 2 ≠ 0) (hgood : good.length % 2 = 0)
    (hr : rdata.length % (channels * 4) ≠ 0) :
    NativeAudioConverter.convert_int16_to_float32 true native c bad
      = (Except.error PyError.valueError, c)
    ∧ NativeAudioConverter.resample true nr c rdata src dst channels
      = (Except.error PyError.valueError, c)
    ∧ (NativeAudioConverter.convert_int16_to_float32 true native c bad).2 = c
    ∧ NativeAudioConverter.convert_int16_to_float32 true native
        (NativeAudioConverter.convert_int16_to_float32 true native c bad).2 good
      = (Except.ok (native good), c)
    ∧ (NativeAudioConverter.resample true nr c rdata src dst channels).2 = c := by
  simp [NativeAudioConverter.convert_int16_to_float32,
    NativeAudioConverter.resample, hbad, hgood, hr]

/-- Witness for c7_length_checks_and_state: a 1-byte buffer is rejected with
ValueError and the converter then accepts the valid 2-byte buffer as if
nothing had happened. -/
theorem c7_length_checks_witness :
    NativeAudioConverter.convert_int16_to_float32 true id
        { quality_str := "low_latency" } [7]
      = (Except.error PyError.valueError, { quality_str := "low_latency" })
    ∧ NativeAudioConverter.convert_int16_to_float32 true id
        (NativeAudioConverter.convert_int16_to_float32 true id
          { quality_str := "low_latency" } [7]).2 [1, 2]
      = (Except.ok [1, 2], { quality_str := "low_latency" }) :=
  ⟨(c7_length_checks_and_state id (fun d _ _ _ _ => d)
      { quality_str := "low_latency" } [7] [1, 2] [0, 0, 0, 0, 0]
      44100 48000 2 (by decide) (by decide) (by decide)).1,
   (c7_length_checks_and_state id (fun d _ _ _ _ => d)
      { quality_str := "low_latency" } [7] [1, 2] [0, 0, 0, 0, 0]
      44100 48000 2 (by decide) (by decide) (by decide)).2.2.2.1⟩

/-- C8 counterexample: a worker iteration with a callback configured and a
non-empty 4-byte chunk (one stereo int16 frame) calls the callback with
frame count -1, not 1, and then also pushes the chunk to the output queue
rather than delivering to only one sink; and an empty read produces no
sleep before the retry. -/
theorem c8_counterexample_worker_shape :
    workerIteration (Except.ok [1, 2, 3, 4]) true false false
      = [WorkerAction.callback [1, 2, 3, 4] (-1),
         WorkerAction.pushQueue [1, 2, 3, 4]]
    ∧ workerIteration (Except.ok []) true false false = []
    ∧ WorkerAction.sleepShort ∉ workerIteration (Except.ok []) true false false
    ∧ workerIteration (Except.ok [1, 2, 3, 4]) true false false
        ≠ [WorkerAction.callback [1, 2, 3, 4] 1] := by
  decide

/-- C8 amended: each worker iteration reads from the backend; a raising read
is logged and retried; an empty read retries immediately with no sleep (and
no converter exists in this coordinator); on data, the callback (when
configured) is invoked with frame count -1, and the chunk is in every case
offered to the output queue, the new chunk being dropped when the queue is
full; the loop ends by pushing the None sentinel. -/
theorem c8_worker_loop_shape (r : Except Unit (List Nat)) (cb cr qf : Bool) :
    WorkerAction.sleepShort ∉ workerIteration r cb cr qf
    ∧ (r = Except.error () → workerIteration r cb cr qf
        = [WorkerAction.logReadError])
    ∧ workerIteration (Except.ok []) cb cr qf = []
    ∧ (∀ data : List Nat, data ≠ [] → cb = true →
        WorkerAction.callback data (-1) ∈ workerIteration (Except.ok data) cb cr qf)
    ∧ (∀ data : List Nat, data ≠ [] → qf = false →
        WorkerAction.pushQueue data ∈ workerIteration (Except.ok data) cb cr qf)
    ∧ (∀ data : List Nat, data ≠ [] → qf = true →
        WorkerAction.dropChunk data ∈ workerIteration (Except.ok data) cb cr qf)
    ∧ (∀ reads, WorkerAction.pushSentinel ∈ ProcessAudioTap.worker reads cb cr qf) := by
  refine ⟨?_, ?_, by simp [workerIteration], ?_, ?_, ?_, ?_⟩
  · rcases r with _ | data
    · simp [workerIteration]
    · by_cases hd : data = [] <;> cases cb <;> cases cr <;> cases qf <;>
        simp [workerIteration, hd]
  · intro hr; subst hr; rfl
  · intro data hd hcb; subst hcb
    cases cr <;> cases qf <;> simp [workerIteration, hd]
  · intro data hd hqf; subst hqf
    cases cb <;> cases cr <;> simp [workerIteration, hd]
  · intro data hd hqf; subst hqf
    cases cb <;> cases cr <;> simp [workerIteration, hd]
  · intro reads; simp [ProcessAudioTap.worker]

/-- Witness for c8_worker_loop_shape: with a callback configured and the
queue not full, a non-empty chunk reaches both the callback (with -1) and
the queue. -/
theorem c8_worker_loop_witness :
    WorkerAction.callback [9, 9] (-1)
        ∈ workerIteration (Except.ok [9, 9]) true false false
    ∧ WorkerAction.pushQueue [9, 9]
        ∈ workerIteration (Except.ok [9, 9]) true false false :=
  ⟨(c8_worker_loop_shape (Except.ok [9, 9]) true false false).2.2.2.1
      [9, 9] (by decide) rfl,
   (c8_worker_loop_shape (Except.ok [9, 9]) true false false).2.2.2.2.1
      [9, 9] (by decide) rfl⟩
